import Mathlib

/-!
Verification of the goconquer repository against its specification.

The Dynamic Prioritized Multiplexer (DPM) is embedded from the canonical
batch variant of `DynamicSelect` (package `ds`): the tiered state machine
(`stateMachine` / `priorityMessageState` / `allMessageState`), the lifecycle
operations (`IsAlive`, `Kill`, `Load`), the listener protocol
(`startListener`), and the registry operations (`updateChannels`,
`Channels`).  The Exponential Backoff Controller is embedded from
`exbo/expo_backoff.go`.

Go channels are modelled explicitly: an unbuffered rendezvous channel with
pending senders becomes a FIFO list of the pending values, and the
single-slot buffered `kill` channel becomes a `Bool`.  A Go `select` over
several ready arms picks uniformly at random; this nondeterminism is
modelled by an explicit scheduler choice `c : Nat` that indexes into the
list of ready arms, so every theorem quantifies over all fair schedules.
Handler functions are opaque to the dispatch logic, so an iteration is
recorded as the list of handler-invocation / task-spawn actions it
performs, in program order.  Go `time.Duration` is `int64`; it is modelled
as `Int` with explicit two's-complement wrap-around where the code
performs arithmetic.
-/

namespace GoConquer

/-- `HandlerEntry` from package `ds`: the per-message handler.  `fid`
stands for the opaque `Func` field (handler identity). -/
structure HandlerEntry where
  fid : Nat
  Blocking : Bool
  Priority : Bool
  deriving DecidableEq

/-- `OnCloseEntry` from package `ds`: the close handler. -/
structure OnCloseEntry where
  fid : Nat
  Blocking : Bool
  deriving DecidableEq

/-- `ChannelEntry` from package `ds` (batch variant, with `IsClosed`).
`Channel` stands for the opaque channel identity. -/
structure ChannelEntry where
  Channel : Nat
  Handler : HandlerEntry
  OnClose : OnCloseEntry
  IsClosed : Bool
  deriving DecidableEq

/-- `dsWrapper`: an `(index, payload)` pair sent on an aggregator. -/
structure dsWrapper where
  Index : Nat
  Target : Nat
  deriving DecidableEq

/-- `closeWrapper`: the close notice a listener sends on `onClose`. -/
structure closeWrapper where
  Index : Nat
  Entry : ChannelEntry
  deriving DecidableEq

/-- The channel-facing state of a running `DynamicSelect`: the pending
content of the single-slot `kill` channel and of the four rendezvous
channels (`onClose`, `priorityAggregator`, `aggregator`, `load`), plus the
registry `channels`.  A pending rendezvous send is a queued value. -/
structure SelState where
  kill : Bool
  onCloseQ : List closeWrapper
  prioQ : List dsWrapper
  aggQ : List dsWrapper
  loadQ : List (List ChannelEntry)
  channels : List ChannelEntry
  deriving DecidableEq

/-- One observable action of a state-machine iteration, in program order. -/
inductive DsAction where
  /-- `handleInternal dsw`: the blocking handler of entry `i` is invoked
  inline with payload `v`. -/
  | runHandler (i : Nat) (v : Nat)
  /-- `handleOnClose i`: `OnClose.Func` of entry `i` is invoked inline. -/
  | runOnClose (i : Nat)
  /-- `go updateChannels ocw`: the registry update task is spawned. -/
  | updateReg (w : closeWrapper)
  /-- `go startListener i e`: a listener task is spawned for a loaded entry. -/
  | spawnL (i : Nat) (e : ChannelEntry)
  deriving DecidableEq

/-- The outcome of a fired `select` arm: successor state, the actions the
arm performed, and the `Bool` the tier returns (`false` = Halt). -/
abbrev Trans := SelState × List DsAction × Bool

/-- The `onClose` arm (tiers 2 and 3): `go updateChannels(ocw)` then
`handleOnClose(ocw.Index)`, return `true`.  `kp` is the content of the
kill channel after the iteration (a kill token that arrived mid-iteration
stays pending). -/
def closeTrans (s : SelState) (kp : Bool) (w : closeWrapper) (rest : List closeWrapper) : Trans :=
  ({ s with onCloseQ := rest, kill := kp },
   [DsAction.updateReg w, DsAction.runOnClose w.Index], true)

/-- The `priorityAggregator` arm: `handleInternal(dsw)`, return `true`. -/
def prioTrans (s : SelState) (kp : Bool) (w : dsWrapper) (rest : List dsWrapper) : Trans :=
  ({ s with prioQ := rest, kill := kp }, [DsAction.runHandler w.Index w.Target], true)

/-- The `aggregator` arm (tier 3 only): `handleInternal(dsw)`, return `true`. -/
def aggTrans (s : SelState) (kp : Bool) (w : dsWrapper) (rest : List dsWrapper) : Trans :=
  ({ s with aggQ := rest, kill := kp }, [DsAction.runHandler w.Index w.Target], true)

/-- The spawn actions of the `load` arm: entry `j` of the batch is given
index `n + j` where `n` is the registry length at its append. -/
def spawnActs (n : Nat) : List ChannelEntry → List DsAction
  | [] => []
  | e :: es => DsAction.spawnL n e :: spawnActs (n + 1) es

/-- The `load` arm (tier 3 only): append each entry of the batch at the
then-current registry length and spawn its listener, return `true`. -/
def loadTrans (s : SelState) (kp : Bool) (batch : List ChannelEntry)
    (rest : List (List ChannelEntry)) : Trans :=
  ({ s with channels := s.channels ++ batch, loadQ := rest, kill := kp },
   spawnActs s.channels.length batch, true)

/-- The `kill` arm: consume the token and return `false` (Halt). -/
def killTrans (s : SelState) (kp : Bool) : Trans :=
  ({ s with kill := kp }, [], false)

/-- Ready arms of the Tier-2 select (`priorityMessageState`), in source
order `onClose`, `priorityAggregator`, `kill`.  `k2` tells whether a kill
token arrived after Tier-1's poll; `k3` whether one arrives later still. -/
def t2Outs (k2 k3 : Bool) (s : SelState) : List Trans :=
  (match s.onCloseQ with
   | [] => []
   | w :: rest => [closeTrans s (k2 || k3) w rest]) ++
  (match s.prioQ with
   | [] => []
   | w :: rest => [prioTrans s (k2 || k3) w rest]) ++
  (if k2 then [killTrans s k3] else [])

/-- Ready arms of the Tier-3 select (`allMessageState`), in source order
`priorityAggregator`, `aggregator`, `load`, `onClose`, `kill`. -/
def t3Outs (k3 : Bool) (s : SelState) : List Trans :=
  (match s.prioQ with
   | [] => []
   | w :: rest => [prioTrans s k3 w rest]) ++
  (match s.aggQ with
   | [] => []
   | w :: rest => [aggTrans s k3 w rest]) ++
  (match s.loadQ with
   | [] => []
   | batch :: rest => [loadTrans s k3 batch rest]) ++
  (match s.onCloseQ with
   | [] => []
   | w :: rest => [closeTrans s k3 w rest]) ++
  (if k3 then [killTrans s false] else [])

/-- Fair selection among the ready arms of a `select`: the scheduler
choice `c` indexes into the ready list; `none` when no arm is ready. -/
def pickArm (c : Nat) (l : List Trans) : Option Trans :=
  l[c % l.length]?

/-- `allMessageState` (Tier-3): a blocking select over all five inputs. -/
def allMessageState (c : Nat) (k3 : Bool) (s : SelState) : Option Trans :=
  pickArm c (t3Outs k3 s)

/-- `priorityMessageState` (Tier-2): a select over `onClose`,
`priorityAggregator` and `kill` with a default arm descending to Tier-3. -/
def priorityMessageState (c : Nat) (k2 k3 : Bool) (s : SelState) : Option Trans :=
  if t2Outs k2 k3 s = [] then allMessageState c k3 s
  else pickArm c (t2Outs k2 k3 s)

/-- `stateMachine` (Tier-1): poll `kill` only; on a hit return `false`
(Halt), on a miss descend to Tier-2 without blocking. -/
def stateMachine (c : Nat) (k2 k3 : Bool) (s : SelState) : Option Trans :=
  if s.kill then some (killTrans s (k2 || k3)) else priorityMessageState c k2 k3 s

/-- Result of running the `Forever` loop for a bounded number of
iterations. -/
inductive RunRes where
  /-- some tier returned `false` and the loop exited -/
  | halts
  /-- Tier-3 blocked with no pending input -/
  | blocks
  /-- the iteration budget ran out with the loop still spinning -/
  | fuelOut
  deriving DecidableEq

/-- Shift a per-iteration schedule by one iteration. -/
def shiftF {α : Type} (σ : Nat → α) : Nat → α := fun n => σ (n + 1)

/-- The `Forever` dispatch loop: `for { alive = stateMachine(); if !alive
return }`, run for `fuel` iterations under choice schedule `σ` and
kill-arrival schedule `κ`.  Returns the concatenated action trace, the
final state, and how the loop ended. -/
def runLoop : Nat → (Nat → Nat) → (Nat → Bool × Bool) → SelState →
    List DsAction × SelState × RunRes
  | 0, _, _, s => ([], s, RunRes.fuelOut)
  | Nat.succ f, σ, κ, s =>
    match stateMachine (σ 0) (κ 0).1 (κ 0).2 s with
    | none => ([], s, RunRes.blocks)
    | some (s', acts, cont) =>
      if cont then
        let r := runLoop f (shiftF σ) (shiftF κ) s'
        (acts ++ r.1, r.2.1, r.2.2)
      else (acts, s', RunRes.halts)

/-- `updateChannels`: write the close notice's entry back to the registry
at its index, under the load guard. -/
def updateChannels (s : SelState) (ocw : closeWrapper) : SelState :=
  { s with channels := s.channels.set ocw.Index ocw.Entry }

/-- `Channels()`: snapshot of the registry under the load guard. -/
def ChannelsSnapshot (s : SelState) : List ChannelEntry := s.channels

/-! ## Lifecycle flags (`alive`, `running`, `killHeard`) and the guarded
operations `IsAlive`, `Kill`, `Load`. -/

/-- The lifecycle flags of a `DynamicSelect` together with the content of
the single-slot buffered `kill` channel. -/
structure LifeState where
  alive : Bool
  running : Bool
  killHeard : Bool
  killQ : Bool
  deriving DecidableEq

/-- The flag state built by `NewDynamicSelect`: `alive` is initialised to
`true`; `running` and `killHeard` start `false`; the kill channel is
empty. -/
def NewDynamicSelectLife : LifeState :=
  { alive := true, running := false, killHeard := false, killQ := false }

/-- `IsAlive()`: `d.alive && !d.killHeard`. -/
def IsAlive (l : LifeState) : Bool := l.alive && !l.killHeard

/-- `Kill()`: return if not alive; otherwise take the kill guard,
re-check aliveness, and on success set `killHeard` and put one token into
the kill channel.  Non-blocking (the kill channel has capacity one and is
only ever written here, under the guard). -/
def Kill (l : LifeState) : LifeState :=
  if !(IsAlive l) then l
  else if IsAlive l then { l with killHeard := true, killQ := true }
  else l

/-- Result of `Load`, by the error it surfaces. -/
inductive LoadResult where
  /-- "DynamicSelect has either halted or is uninitialized." -/
  | notAlive
  /-- "DynamicSelect has not been started, this could otherwise deadlock." -/
  | notStarted
  /-- `nil`: the batch was handed over the `load` rendezvous. -/
  | ok
  deriving DecidableEq

/-- `Load(c)`: error `notAlive` when `!IsAlive()`, error `notStarted`
when `!running`, otherwise hand the batch to the state machine and
succeed.  The flags are never mutated. -/
def Load (l : LifeState) : LoadResult × LifeState :=
  if !(IsAlive l) then (LoadResult.notAlive, l)
  else if !l.running then (LoadResult.notStarted, l)
  else (LoadResult.ok, l)

/-- Inert: constructed but `Forever` not yet invoked. -/
def InertS (l : LifeState) : Prop := l = NewDynamicSelectLife

/-- Running: `Forever` has set `running`, no kill heard, loop alive. -/
def RunningS (l : LifeState) : Prop :=
  l.alive = true ∧ l.running = true ∧ l.killHeard = false

/-- Draining: a kill has been heard (first successful `Kill()`). -/
def DrainingS (l : LifeState) : Prop := l.killHeard = true

/-- Halted: `shutDown` has cleared `alive` and `running` (and made sure
`killHeard` is set). -/
def HaltedS (l : LifeState) : Prop :=
  l.alive = false ∧ l.running = false ∧ l.killHeard = true

/-! ## The listener protocol (`startListener`). -/

/-- One observable action of a listener task, in program order. -/
inductive LAction where
  /-- `go e.Handler.Func(x)`: detached non-blocking handler invocation. -/
  | detachedHandler (i : Nat) (v : Nat)
  /-- send on `priorityAggregator`. -/
  | sendPrio (w : dsWrapper)
  /-- send on `aggregator`. -/
  | sendAgg (w : dsWrapper)
  /-- `go e.OnClose.Func()`: detached close-handler invocation. -/
  | detachedOnClose (i : Nat)
  /-- send of the close notice on `onClose`. -/
  | sendClose (w : closeWrapper)
  deriving DecidableEq

/-- What the listener's blocking select observes in one loop iteration
(or, for `aliveFalse`, what the loop-top `IsAlive` check observes). -/
inductive LEvent where
  /-- a value arrives on the entry's channel (`ok = true`) -/
  | recv (v : Nat)
  /-- the entry's channel is closed (`ok = false`) -/
  | chanClosed
  /-- the `done` broadcast fires -/
  | doneSig
  /-- the loop-top `!d.IsAlive()` check is hit -/
  | aliveFalse
  /-- a runtime panic is raised and caught by the deferred `recover` -/
  | panicEv
  deriving DecidableEq

/-- Why a listener left its loop. -/
inductive ExitKind where
  /-- end of stream (`ok = false`) -/
  | eofExit
  /-- caught runtime fault -/
  | panicExit
  /-- the `done` broadcast -/
  | doneExit
  /-- the loop-top `!IsAlive()` check -/
  | notAliveExit
  deriving DecidableEq

/-- The listener loop body, processing events until an exit.  Returns the
actions performed, the local copy `e` of the entry as it stands at exit,
and the exit kind (`none` while still looping with events exhausted).
On `chanClosed` the loop sets `e.IsClosed = true` before returning; on
`doneSig` and `aliveFalse` it returns with `e` untouched. -/
def listenerLoop (i : Nat) (e : ChannelEntry) :
    List LEvent → List LAction × ChannelEntry × Option ExitKind
  | [] => ([], e, none)
  | LEvent.recv v :: evs =>
    let act :=
      if !e.Handler.Blocking then LAction.detachedHandler i v
      else if e.Handler.Priority then LAction.sendPrio ⟨i, v⟩
      else LAction.sendAgg ⟨i, v⟩
    let r := listenerLoop i e evs
    (act :: r.1, r.2)
  | LEvent.chanClosed :: _ => ([], { e with IsClosed := true }, some ExitKind.eofExit)
  | LEvent.doneSig :: _ => ([], e, some ExitKind.doneExit)
  | LEvent.aliveFalse :: _ => ([], e, some ExitKind.notAliveExit)
  | LEvent.panicEv :: _ => ([], e, some ExitKind.panicExit)

/-- The close notice the deferred exit path sends: the local entry copy,
with `IsClosed` forced to `true` by the `recover` branch only when the
exit was a caught panic. -/
def closeWrapperOf (i : Nat) (e : ChannelEntry) (k : ExitKind) : closeWrapper :=
  ⟨i, if k = ExitKind.panicExit then { e with IsClosed := true } else e⟩

/-- The deferred exit path of `startListener`: run `recover`, spawn the
close handler detached when it is non-blocking (and only then), and send
the close notice on `onClose`. -/
def listenerExit (i : Nat) (e : ChannelEntry) (k : ExitKind) : List LAction :=
  (if !e.OnClose.Blocking then [LAction.detachedOnClose i] else []) ++
  [LAction.sendClose (closeWrapperOf i e k)]

/-- A full listener lifetime over an event schedule: `startListener`
first resets the local `e.IsClosed` to `false`, then runs the loop, then
(when the loop exits) the deferred exit path. -/
def startListener (i : Nat) (e : ChannelEntry) (evs : List LEvent) :
    List LAction × Option ExitKind :=
  let r := listenerLoop i { e with IsClosed := false } evs
  match r.2.2 with
  | some k => (r.1 ++ listenerExit i r.2.1 k, some k)
  | none => (r.1, none)

/-- The Tier-2/Tier-3 `onClose` arm's actions on one close notice, as
performed by the state machine. -/
def machineCloseActs (w : closeWrapper) : List DsAction :=
  [DsAction.updateReg w, DsAction.runOnClose w.Index]

/-- Number of detached `OnClose.Func` invocations for entry `i` in a
listener action trace. -/
def countDetachedOnClose (i : Nat) : List LAction → Nat
  | [] => 0
  | LAction.detachedOnClose j :: rest =>
    (if j = i then 1 else 0) + countDetachedOnClose i rest
  | _ :: rest => countDetachedOnClose i rest

/-- Number of inline `OnClose.Func` invocations for entry `i` in a
state-machine action trace. -/
def countRunOnClose (i : Nat) : List DsAction → Nat
  | [] => 0
  | DsAction.runOnClose j :: rest =>
    (if j = i then 1 else 0) + countRunOnClose i rest
  | _ :: rest => countRunOnClose i rest

/-- Total number of `OnClose.Func` invocations caused by one listener
lifetime that exits with local entry `e` and exit kind `k`, counting the
listener's own deferred path plus the state machine's processing of the
corresponding close notice. -/
def lifetimeOnCloseCount (i : Nat) (e : ChannelEntry) (k : ExitKind) : Nat :=
  countDetachedOnClose i (listenerExit i e k) +
    countRunOnClose i (machineCloseActs (closeWrapperOf i e k))

/-! ## Exponential Backoff Controller (`exbo/expo_backoff.go`).

`time.Duration` is `int64`; arithmetic is modelled on `Int` with explicit
two's-complement wrap-around (`wrap64`). -/

/-- `exbo.Opts`. -/
structure Opts where
  Min : Int
  Max : Int
  CooldownTick : Int
  CooldownSize : Int
  deriving DecidableEq

/-- The fields of `ExpoBackoffManager` relevant to its arithmetic and to
`CurrentWaitTime`. -/
structure ExpoBackoffManager where
  alive : Bool
  currentBackOff : Int
  minBackOff : Int
  maxBackOff : Int
  cooldownTick : Int
  cooldownSize : Int
  deriving DecidableEq

/-- Two's-complement wrap-around of `int64` arithmetic. -/
def wrap64 (x : Int) : Int :=
  (x + 9223372036854775808) % 18446744073709551616 - 9223372036854775808

/-- The manager state built by `NewExpoBackoffManager` on success:
`currentBackOff` starts at `Min`, `alive` is `true`. -/
def initEBM (o : Opts) : ExpoBackoffManager :=
  { alive := true, currentBackOff := o.Min, minBackOff := o.Min,
    maxBackOff := o.Max, cooldownTick := o.CooldownTick,
    cooldownSize := o.CooldownSize }

/-- `NewExpoBackoffManager`: the only validation is `Min > Max`, which
fails construction; any `Min ≤ Max` (negative durations included) is
accepted. -/
def NewExpoBackoffManager (o : Opts) : Option ExpoBackoffManager :=
  if o.Min > o.Max then none else some (initEBM o)

/-- `handleSleepChan`: under the backoff guard, snapshot `currentBackOff`
as the ticket's timeout, double it (int64 arithmetic), and clamp from
above at `maxBackOff`.  Returns the snapshot and the updated manager. -/
def handleSleepStep (e : ExpoBackoffManager) : Int × ExpoBackoffManager :=
  let timeout := e.currentBackOff
  let doubled := wrap64 (e.currentBackOff * 2)
  let clamped := if doubled > e.maxBackOff then e.maxBackOff else doubled
  (timeout, { e with currentBackOff := clamped })

/-- The cooldown arm of `Run`: when `currentBackOff > minBackOff`,
subtract `cooldownSize` (int64 arithmetic) and clamp from below at
`minBackOff`; otherwise do nothing. -/
def cooldownStep (e : ExpoBackoffManager) : ExpoBackoffManager :=
  if e.currentBackOff > e.minBackOff then
    let lowered := wrap64 (e.currentBackOff - e.cooldownSize)
    let clamped := if lowered < e.minBackOff then e.minBackOff else lowered
    { e with currentBackOff := clamped }
  else e

/-- `Run` returning (after `Stop`): the deferred function clears `alive`. -/
def stopRun (e : ExpoBackoffManager) : ExpoBackoffManager :=
  { e with alive := false }

/-- `CurrentWaitTime()`: `(minBackOff, true, false)` when the controller
is not alive; otherwise the guarded snapshot of `currentBackOff` with its
comparisons against `minBackOff` and `maxBackOff`. -/
def CurrentWaitTime (e : ExpoBackoffManager) : Int × Bool × Bool :=
  if !e.alive then (e.minBackOff, true, false)
  else (e.currentBackOff, e.currentBackOff == e.minBackOff,
        e.currentBackOff == e.maxBackOff)

/-- `k` consecutive `Wait` tickets processed with no cooldown tick in
between. -/
def waitIter : Nat → ExpoBackoffManager → ExpoBackoffManager
  | 0, e => e
  | Nat.succ k, e => (handleSleepStep (waitIter k e)).2

/-! ## Helper lemmas about fair selection and the arm lists. -/

theorem pickArm_eq_none_iff (c : Nat) (l : List Trans) :
    pickArm c l = none ↔ l = [] := by
  unfold pickArm
  constructor
  · intro h
    by_contra hne
    have hpos : 0 < l.length := List.length_pos.mpr hne
    have hlt : c % l.length < l.length := Nat.mod_lt _ hpos
    rw [List.getElem?_eq_getElem hlt] at h
    exact Option.noConfusion h
  · intro h
    subst h
    rfl

theorem pickArm_some_of_ne_nil (c : Nat) (l : List Trans) (h : l ≠ []) :
    ∃ t, pickArm c l = some t ∧ t ∈ l := by
  have hpos : 0 < l.length := List.length_pos.mpr h
  have hlt : c % l.length < l.length := Nat.mod_lt _ hpos
  refine ⟨l[c % l.length], ?_, List.getElem_mem hlt⟩
  unfold pickArm
  exact List.getElem?_eq_getElem hlt

theorem pickArm_mem {c : Nat} {l : List Trans} {t : Trans}
    (h : pickArm c l = some t) : t ∈ l :=
  List.getElem?_mem h

theorem t2Outs_eq_nil_iff (k2 k3 : Bool) (s : SelState) :
    t2Outs k2 k3 s = [] ↔ s.onCloseQ = [] ∧ s.prioQ = [] ∧ k2 = false := by
  unfold t2Outs
  rcases hoc : s.onCloseQ with _ | ⟨w, rest⟩ <;>
    rcases hp : s.prioQ with _ | ⟨w', rest'⟩ <;>
      cases k2 <;> simp

theorem t2Outs_mem_iff (k2 k3 : Bool) (s : SelState) (t : Trans) :
    t ∈ t2Outs k2 k3 s ↔
      ((∃ w rest, s.onCloseQ = w :: rest ∧ t = closeTrans s (k2 || k3) w rest) ∨
       (∃ w rest, s.prioQ = w :: rest ∧ t = prioTrans s (k2 || k3) w rest) ∨
       (k2 = true ∧ t = killTrans s k3)) := by
  unfold t2Outs
  rcases hoc : s.onCloseQ with _ | ⟨w, rest⟩ <;>
    rcases hp : s.prioQ with _ | ⟨w', rest'⟩ <;>
      cases k2 <;> simp [hoc, hp, eq_comm, and_assoc]

theorem t3Outs_eq_nil_iff (k3 : Bool) (s : SelState) :
    t3Outs k3 s = [] ↔
      s.prioQ = [] ∧ s.aggQ = [] ∧ s.loadQ = [] ∧ s.onCloseQ = [] ∧ k3 = false := by
  unfold t3Outs
  rcases hp : s.prioQ with _ | ⟨w1, r1⟩ <;>
    rcases ha : s.aggQ with _ | ⟨w2, r2⟩ <;>
      rcases hl : s.loadQ with _ | ⟨b, r3⟩ <;>
        rcases hoc : s.onCloseQ with _ | ⟨w4, r4⟩ <;>
          cases k3 <;> simp

theorem t3Outs_mem_iff (k3 : Bool) (s : SelState) (t : Trans) :
    t ∈ t3Outs k3 s ↔
      ((∃ w rest, s.prioQ = w :: rest ∧ t = prioTrans s k3 w rest) ∨
       (∃ w rest, s.aggQ = w :: rest ∧ t = aggTrans s k3 w rest) ∨
       (∃ batch rest, s.loadQ = batch :: rest ∧ t = loadTrans s k3 batch rest) ∨
       (∃ w rest, s.onCloseQ = w :: rest ∧ t = closeTrans s k3 w rest) ∨
       (k3 = true ∧ t = killTrans s false)) := by
  unfold t3Outs
  rcases hp : s.prioQ with _ | ⟨w1, r1⟩ <;>
    rcases ha : s.aggQ with _ | ⟨w2, r2⟩ <;>
      rcases hl : s.loadQ with _ | ⟨b, r3⟩ <;>
        rcases hoc : s.onCloseQ with _ | ⟨w4, r4⟩ <;>
          cases k3 <;> simp [hp, ha, hl, hoc, eq_comm, and_assoc]

theorem spawnActs_length (b : List ChannelEntry) : ∀ n : Nat,
    (spawnActs n b).length = b.length := by
  induction b with
  | nil => intro n; rfl
  | cons e es ih => intro n; simp [spawnActs, ih]

theorem spawnActs_getElem? (b : List ChannelEntry) : ∀ (n j : Nat), (h : j < b.length) →
    (spawnActs n b)[j]? = some (DsAction.spawnL (n + j) b[j]) := by
  induction b with
  | nil =>
    intro n j h
    simp at h
  | cons e es ih =>
    intro n j h
    cases j with
    | zero => simp [spawnActs]
    | succ j' =>
      have h' : j' < es.length := by
        simpa using h
      have hrec := ih (n + 1) j' h'
      have e1 : n + 1 + j' = n + (j' + 1) := by omega
      rw [e1] at hrec
      simpa [spawnActs] using hrec

theorem listenerLoop_isClosed (i : Nat) :
    ∀ (evs : List LEvent) (e : ChannelEntry) (k : ExitKind),
      (listenerLoop i e evs).2.2 = some k →
      (listenerLoop i e evs).2.1.IsClosed =
        (if k = ExitKind.eofExit then true else e.IsClosed) := by
  intro evs
  induction evs with
  | nil =>
    intro e k h
    exact absurd h (by simp [listenerLoop])
  | cons ev evs ih =>
    intro e k h
    cases ev with
    | recv v =>
      simp only [listenerLoop] at h ⊢
      exact ih e k h
    | chanClosed =>
      simp only [listenerLoop, Option.some.injEq] at h
      subst h
      simp [listenerLoop]
    | doneSig =>
      simp only [listenerLoop, Option.some.injEq] at h
      subst h
      simp [listenerLoop]
    | aliveFalse =>
      simp only [listenerLoop, Option.some.injEq] at h
      subst h
      simp [listenerLoop]
    | panicEv =>
      simp only [listenerLoop, Option.some.injEq] at h
      subst h
      simp [listenerLoop]

theorem wrap64_eq_self (x : Int) (h1 : -9223372036854775808 ≤ x)
    (h2 : x < 9223372036854775808) : wrap64 x = x := by
  unfold wrap64
  omega

theorem handleSleepStep_current (e : ExpoBackoffManager)
    (hmin0 : 0 ≤ e.minBackOff)
    (hov : 2 * e.maxBackOff < 9223372036854775808)
    (hlo : e.minBackOff ≤ e.currentBackOff)
    (hhi : e.currentBackOff ≤ e.maxBackOff) :
    (handleSleepStep e).2.currentBackOff = min (2 * e.currentBackOff) e.maxBackOff := by
  have hw : wrap64 (e.currentBackOff * 2) = e.currentBackOff * 2 :=
    wrap64_eq_self _ (by omega) (by omega)
  simp only [handleSleepStep, hw]
  omega

theorem cooldownStep_current (e : ExpoBackoffManager)
    (hmin0 : 0 ≤ e.minBackOff)
    (hsz0 : 0 ≤ e.cooldownSize)
    (hszhi : e.cooldownSize < 9223372036854775808)
    (hmaxov : e.maxBackOff < 9223372036854775808)
    (hlo : e.minBackOff ≤ e.currentBackOff)
    (hhi : e.currentBackOff ≤ e.maxBackOff) :
    (cooldownStep e).currentBackOff = max (e.currentBackOff - e.cooldownSize) e.minBackOff := by
  unfold cooldownStep
  by_cases hgt : e.currentBackOff > e.minBackOff
  · have hw : wrap64 (e.currentBackOff - e.cooldownSize) = e.currentBackOff - e.cooldownSize :=
      wrap64_eq_self _ (by omega) (by omega)
    simp only [hgt, if_pos, hw]
    omega
  · simp only [hgt, if_neg, if_false]
    omega

theorem waitIter_fields (e : ExpoBackoffManager) : ∀ k : Nat,
    (waitIter k e).minBackOff = e.minBackOff ∧
    (waitIter k e).maxBackOff = e.maxBackOff := by
  intro k
  induction k with
  | zero => exact ⟨rfl, rfl⟩
  | succ k ih => simpa [waitIter, handleSleepStep] using ih

theorem waitIter_formula (o : Opts) (hmin0 : 0 ≤ o.Min) (hminmax : o.Min ≤ o.Max)
    (hov : 2 * o.Max < 9223372036854775808) :
    ∀ k : Nat, (waitIter k (initEBM o)).currentBackOff = min (o.Min * 2 ^ k) o.Max := by
  intro k
  induction k with
  | zero =>
    simp only [waitIter, initEBM, pow_zero, mul_one]
    omega
  | succ k ih =>
    have hfld := waitIter_fields (initEBM o) k
    have hmin : (waitIter k (initEBM o)).minBackOff = o.Min := hfld.1
    have hmax : (waitIter k (initEBM o)).maxBackOff = o.Max := hfld.2
    have hpow : (0 : Int) < 2 ^ k := by positivity
    have hge : o.Min * 2 ^ k ≥ o.Min := by
      have := mul_le_mul_of_nonneg_left (by omega : (1 : Int) ≤ 2 ^ k) hmin0
      simpa [mul_comm] using this
    have hlo : o.Min ≤ (waitIter k (initEBM o)).currentBackOff := by
      rw [ih]
      omega
    have hhi : (waitIter k (initEBM o)).currentBackOff ≤ o.Max := by
      rw [ih]
      omega
    have hstep := handleSleepStep_current (waitIter k (initEBM o))
      (by rw [hmin]; exact hmin0) (by rw [hmax]; exact hov)
      (by rw [hmin]; exact hlo) (by rw [hmax]; exact hhi)
    rw [waitIter, hstep, hmax, ih]
    have hdou : o.Min * 2 ^ (k + 1) = 2 * (o.Min * 2 ^ k) := by ring
    rw [hdou]
    generalize o.Min * 2 ^ k = a at hge ⊢
    omega

/-! ## Claims. -/

/-- Claim C1: per iteration the state machine performs exactly the
three-tier selection.  Tier-1 polls only the kill input and halts on a hit
(consuming the token, performing no action), otherwise falls through
without blocking; Tier-2 polls `close_notify`, `priority`, and `kill`, and
when any is ready it fires one of exactly those arms — handling a close or
a priority message with `Continue`, or halting on kill — otherwise it
falls through without blocking; Tier-3 blocks on `priority`, `normal`,
`load`, `close_notify`, and `kill` (no result exactly when none is ready)
and handles the hit arm; and the `Forever` loop repeats an iteration
returning `true` and stops at an iteration returning `false` (Halt). -/
theorem c1_three_tier_selection :
    ∀ (c : Nat) (k2 k3 : Bool) (s : SelState),
      (s.kill = true →
        stateMachine c k2 k3 s = some ({ s with kill := k2 || k3 }, [], false)) ∧
      (s.kill = false → t2Outs k2 k3 s ≠ [] →
        ∃ t, stateMachine c k2 k3 s = some t ∧ t ∈ t2Outs k2 k3 s) ∧
      (∀ t, t ∈ t2Outs k2 k3 s ↔
        ((∃ w rest, s.onCloseQ = w :: rest ∧ t = closeTrans s (k2 || k3) w rest) ∨
         (∃ w rest, s.prioQ = w :: rest ∧ t = prioTrans s (k2 || k3) w rest) ∨
         (k2 = true ∧ t = killTrans s k3))) ∧
      (t2Outs k2 k3 s = [] ↔ s.onCloseQ = [] ∧ s.prioQ = [] ∧ k2 = false) ∧
      (s.kill = false → t2Outs k2 k3 s = [] →
        stateMachine c k2 k3 s = allMessageState c k3 s) ∧
      (allMessageState c k3 s = none ↔
        s.prioQ = [] ∧ s.aggQ = [] ∧ s.loadQ = [] ∧ s.onCloseQ = [] ∧ k3 = false) ∧
      (∀ t, allMessageState c k3 s = some t → t ∈ t3Outs k3 s) ∧
      (∀ t, t ∈ t3Outs k3 s ↔
        ((∃ w rest, s.prioQ = w :: rest ∧ t = prioTrans s k3 w rest) ∨
         (∃ w rest, s.aggQ = w :: rest ∧ t = aggTrans s k3 w rest) ∨
         (∃ batch rest, s.loadQ = batch :: rest ∧ t = loadTrans s k3 batch rest) ∨
         (∃ w rest, s.onCloseQ = w :: rest ∧ t = closeTrans s k3 w rest) ∨
         (k3 = true ∧ t = killTrans s false))) ∧
      (∀ (f : Nat) (σ : Nat → Nat) (κ : Nat → Bool × Bool) (s₀ s₁ : SelState)
          (acts : List DsAction),
        stateMachine (σ 0) (κ 0).1 (κ 0).2 s₀ = some (s₁, acts, false) →
        runLoop (f + 1) σ κ s₀ = (acts, s₁, RunRes.halts)) ∧
      (∀ (f : Nat) (σ : Nat → Nat) (κ : Nat → Bool × Bool) (s₀ s₁ : SelState)
          (acts : List DsAction),
        stateMachine (σ 0) (κ 0).1 (κ 0).2 s₀ = some (s₁, acts, true) →
        runLoop (f + 1) σ κ s₀ =
          (acts ++ (runLoop f (shiftF σ) (shiftF κ) s₁).1,
           (runLoop f (shiftF σ) (shiftF κ) s₁).2)) := by
  intro c k2 k3 s
  refine ⟨?_, ?_, ?_, ?_, ?_, ?_, ?_, ?_, ?_, ?_⟩
  · intro h
    simp [stateMachine, h, killTrans]
  · intro h hne
    simpa [stateMachine, h, priorityMessageState, hne] using
      pickArm_some_of_ne_nil c (t2Outs k2 k3 s) hne
  · intro t
    exact t2Outs_mem_iff k2 k3 s t
  · exact t2Outs_eq_nil_iff k2 k3 s
  · intro h h2
    simp [stateMachine, h, priorityMessageState, h2]
  · rw [allMessageState, pickArm_eq_none_iff]
    exact t3Outs_eq_nil_iff k3 s
  · intro t h
    exact pickArm_mem h
  · intro t
    exact t3Outs_mem_iff k3 s t
  · intro f σ κ s₀ s₁ acts h
    simp [runLoop, h]
  · intro f σ κ s₀ s₁ acts h
    simp [runLoop, h]

/-- Witness for C1: the conjunction instantiated at a concrete state with
a pending kill token; Tier-1 halts there. -/
theorem c1_three_tier_selection_witness :
    stateMachine 0 false false
      { kill := true, onCloseQ := [], prioQ := [], aggQ := [],
        loadQ := [], channels := [] } =
      some ({ kill := false, onCloseQ := [], prioQ := [], aggQ := [],
              loadQ := [], channels := [] }, [], false) :=
  (c1_three_tier_selection 0 false false
    { kill := true, onCloseQ := [], prioQ := [], aggQ := [],
      loadQ := [], channels := [] }).1 rfl

/-- Claim C3: once a kill token is pending at the start of an iteration,
the state machine halts at that iteration's Tier-1 poll with no handler
action, and the loop performs no further action at all; and an iteration
dispatched before the kill keeps its actions as a prefix of the loop's
trace (nothing already dispatched is cancelled). -/
theorem c3_kill_preempts_iteration :
    ∀ (c : Nat) (k2 k3 : Bool) (s : SelState), s.kill = true →
      (stateMachine c k2 k3 s = some ({ s with kill := k2 || k3 }, [], false)) ∧
      (∀ (f : Nat) (σ : Nat → Nat) (κ : Nat → Bool × Bool),
        runLoop (f + 1) σ κ s =
          ([], { s with kill := (κ 0).1 || (κ 0).2 }, RunRes.halts)) ∧
      (∀ (f : Nat) (σ : Nat → Nat) (κ : Nat → Bool × Bool) (s' s'' : SelState)
          (acts : List DsAction),
        stateMachine (σ 0) (κ 0).1 (κ 0).2 s' = some (s'', acts, true) →
        (runLoop (f + 1) σ κ s').1 =
          acts ++ (runLoop f (shiftF σ) (shiftF κ) s'').1) := by
  intro c k2 k3 s h
  refine ⟨?_, ?_, ?_⟩
  · simp [stateMachine, h, killTrans]
  · intro f σ κ
    simp [runLoop, stateMachine, h, killTrans]
  · intro f σ κ s' s'' acts hstep
    simp [runLoop, hstep]

/-- Witness for C3: a state whose kill token is pending halts at once
with an empty action trace. -/
theorem c3_kill_preempts_iteration_witness :
    runLoop 4 (fun _ => 0) (fun _ => (false, false))
      { kill := true, onCloseQ := [], prioQ := [⟨0, 7⟩], aggQ := [],
        loadQ := [], channels := [] } =
      ([], { kill := false, onCloseQ := [], prioQ := [⟨0, 7⟩], aggQ := [],
             loadQ := [], channels := [] }, RunRes.halts) :=
  ((c3_kill_preempts_iteration 0 false false
    { kill := true, onCloseQ := [], prioQ := [⟨0, 7⟩], aggQ := [],
      loadQ := [], channels := [] } rfl).2.1 3 (fun _ => 0) (fun _ => (false, false)))

/-- Claim C4: `Load` fails with the NotStarted error on an Inert DPM,
fails with the NotAlive error when Draining or Halted, leaves the flags
unchanged in every failure case, and succeeds when Running. -/
theorem c4_load_errors :
    ∀ l : LifeState,
      (InertS l → Load l = (LoadResult.notStarted, l)) ∧
      (DrainingS l ∨ HaltedS l → Load l = (LoadResult.notAlive, l)) ∧
      (RunningS l → Load l = (LoadResult.ok, l)) := by
  intro l
  refine ⟨?_, ?_, ?_⟩
  · intro h
    rw [InertS] at h
    subst h
    rfl
  · intro h
    rcases h with h | h
    · rw [DrainingS] at h
      simp [Load, IsAlive, h]
    · simp [Load, IsAlive, h.1]
  · intro h
    simp [Load, IsAlive, h.1, h.2.1, h.2.2]

/-- Witness for C4: the three outcomes at concrete flag states. -/
theorem c4_load_errors_witness :
    Load NewDynamicSelectLife = (LoadResult.notStarted, NewDynamicSelectLife) ∧
    Load { alive := true, running := true, killHeard := true, killQ := true } =
      (LoadResult.notAlive,
       { alive := true, running := true, killHeard := true, killQ := true }) ∧
    Load { alive := true, running := true, killHeard := false, killQ := false } =
      (LoadResult.ok,
       { alive := true, running := true, killHeard := false, killQ := false }) :=
  ⟨(c4_load_errors NewDynamicSelectLife).1 rfl,
   (c4_load_errors _).2.1 (Or.inl rfl),
   (c4_load_errors _).2.2 ⟨rfl, rfl, rfl⟩⟩

/-- Claim C5 (code bug): the claim — and the repository README, which
documents `isAlive := dysl.IsAlive() // false, the select isn't running`
— say `IsAlive()` is false on a freshly constructed DPM whose `Forever`
has not run.  The code disagrees: `NewDynamicSelect` initialises `alive`
to `true` and `IsAlive` returns `alive && !killHeard` without consulting
`running`, so on the fresh state (`running = false`) it returns `true`. -/
theorem c5_isalive_true_on_fresh :
    IsAlive NewDynamicSelectLife = true ∧
      NewDynamicSelectLife.running = false ∧
      NewDynamicSelectLife.killHeard = false := by
  decide

/-- Claim C6: `Kill` is idempotent — the first call on a Running DPM with
an empty kill channel records `killHeard` (Draining) and delivers exactly
one token, every call on a non-alive DPM is a no-op, and
`Kill (Kill l) = Kill l` for every flag state. -/
theorem c6_kill_idempotent :
    ∀ l : LifeState,
      (Kill (Kill l) = Kill l) ∧
      (RunningS l → l.killQ = false →
        Kill l = { l with killHeard := true, killQ := true } ∧
        DrainingS (Kill l) ∧ (Kill l).killQ = true ∧ IsAlive (Kill l) = false) ∧
      (IsAlive l = false → Kill l = l) := by
  intro l
  refine ⟨?_, ?_, ?_⟩
  · rcases l with ⟨a, r, kh, kq⟩
    cases a <;> cases kh <;> simp [Kill, IsAlive]
  · intro h hq
    rcases l with ⟨a, r, kh, kq⟩
    rcases h with ⟨h1, h2, h3⟩
    simp only at h1 h2 h3
    subst h1
    subst h2
    subst h3
    simp only at hq
    subst hq
    refine ⟨rfl, rfl, rfl, rfl⟩
  · intro h
    simp [Kill, h]

/-- Witness for C6: the first kill on a Running state delivers the token
and drains; the second is a no-op. -/
theorem c6_kill_idempotent_witness :
    Kill { alive := true, running := true, killHeard := false, killQ := false } =
      { alive := true, running := true, killHeard := true, killQ := true } ∧
    Kill (Kill { alive := true, running := true, killHeard := false, killQ := false }) =
      Kill { alive := true, running := true, killHeard := false, killQ := false } :=
  ⟨((c6_kill_idempotent _).2.1 ⟨rfl, rfl, rfl⟩ rfl).1,
   (c6_kill_idempotent _).1⟩

/-- Claim C7: a Load batch received in Tier-3 appends each entry in
order, each at the contiguous next index (the registry length at its
append), spawns one listener per entry at that index, and the resulting
registry snapshot is the pre-existing entries followed by the batch. -/
theorem c7_load_append_contiguous :
    ∀ (c : Nat) (s : SelState) (batch : List ChannelEntry)
      (rest : List (List ChannelEntry)),
      s.kill = false → s.prioQ = [] → s.aggQ = [] → s.onCloseQ = [] →
      s.loadQ = batch :: rest →
      stateMachine c false false s = some (loadTrans s false batch rest) ∧
      ChannelsSnapshot (loadTrans s false batch rest).1 =
        ChannelsSnapshot s ++ batch ∧
      (loadTrans s false batch rest).2.1 = spawnActs s.channels.length batch ∧
      (spawnActs s.channels.length batch).length = batch.length ∧
      (∀ j, (h : j < batch.length) →
        (spawnActs s.channels.length batch)[j]? =
          some (DsAction.spawnL (s.channels.length + j) batch[j])) ∧
      (∀ j, (h : j < batch.length) →
        (ChannelsSnapshot (loadTrans s false batch rest).1)[s.channels.length + j]? =
          some batch[j]) := by
  intro c s batch rest hk hp ha hoc hl
  have hnil : t2Outs false false s = [] := by
    rw [t2Outs_eq_nil_iff]
    exact ⟨hoc, hp, rfl⟩
  have houts : t3Outs false s = [loadTrans s false batch rest] := by
    simp [t3Outs, hp, ha, hoc, hl]
  refine ⟨?_, ?_, rfl, spawnActs_length batch s.channels.length, ?_, ?_⟩
  · simp [stateMachine, hk, priorityMessageState, hnil, allMessageState, houts,
      pickArm, Nat.mod_one]
  · simp [ChannelsSnapshot, loadTrans]
  · intro j h
    exact spawnActs_getElem? batch s.channels.length j h
  · intro j h
    simp only [ChannelsSnapshot, loadTrans]
    rw [List.getElem?_append_right (by omega)]
    simp [h]

/-- Witness for C7: loading a two-entry batch onto a one-entry registry
assigns indices 1 and 2 and snapshots old ++ batch. -/
theorem c7_load_append_contiguous_witness :
    stateMachine 0 false false
      { kill := false, onCloseQ := [], prioQ := [], aggQ := [],
        loadQ := [[⟨10, ⟨1, true, true⟩, ⟨2, true⟩, false⟩,
                   ⟨11, ⟨3, false, false⟩, ⟨4, false⟩, false⟩]],
        channels := [⟨9, ⟨0, true, false⟩, ⟨0, true⟩, false⟩] } =
      some (loadTrans
        { kill := false, onCloseQ := [], prioQ := [], aggQ := [],
          loadQ := [[⟨10, ⟨1, true, true⟩, ⟨2, true⟩, false⟩,
                     ⟨11, ⟨3, false, false⟩, ⟨4, false⟩, false⟩]],
          channels := [⟨9, ⟨0, true, false⟩, ⟨0, true⟩, false⟩] }
        false
        [⟨10, ⟨1, true, true⟩, ⟨2, true⟩, false⟩,
         ⟨11, ⟨3, false, false⟩, ⟨4, false⟩, false⟩]
        []) :=
  (c7_load_append_contiguous 0
    { kill := false, onCloseQ := [], prioQ := [], aggQ := [],
      loadQ := [[⟨10, ⟨1, true, true⟩, ⟨2, true⟩, false⟩,
                 ⟨11, ⟨3, false, false⟩, ⟨4, false⟩, false⟩]],
      channels := [⟨9, ⟨0, true, false⟩, ⟨0, true⟩, false⟩] }
    [⟨10, ⟨1, true, true⟩, ⟨2, true⟩, false⟩,
     ⟨11, ⟨3, false, false⟩, ⟨4, false⟩, false⟩]
    [] rfl rfl rfl rfl rfl).1

/-- Counterexample to claim C2 as stated: for an entry whose `on_close`
handler is non-blocking, one listener lifetime yields two invocations of
`OnClose.Func` — one detached by the listener's deferred exit path, and
one inline by the state machine's `handleOnClose` when it processes the
listener's close notice — not exactly one. -/
theorem c2_counterexample :
    lifetimeOnCloseCount 0 ⟨5, ⟨1, true, false⟩, ⟨2, false⟩, true⟩
      ExitKind.eofExit = 2 ∧ (2 : Nat) ≠ 1 := by
  decide

/-- Claim C2 (amended): the listener's deferred exit path invokes
`on_close` only when the handler is non-blocking (as a detached task,
never inline); the state machine, upon receiving the listener's
`closeWrapper` on `close_notify`, spawns the registry update AND invokes
`on_close` inline via `handleOnClose`; hence `on_close` runs exactly once
per listener lifetime when blocking, and exactly twice when non-blocking. -/
theorem c2_on_close_invocation_count :
    ∀ (i : Nat) (e : ChannelEntry) (k : ExitKind),
      (∀ (s : SelState) (kp : Bool) (rest : List closeWrapper),
        (closeTrans s kp (closeWrapperOf i e k) rest).2.1 =
          machineCloseActs (closeWrapperOf i e k)) ∧
      machineCloseActs (closeWrapperOf i e k) =
        [DsAction.updateReg (closeWrapperOf i e k), DsAction.runOnClose i] ∧
      countRunOnClose i (machineCloseActs (closeWrapperOf i e k)) = 1 ∧
      countDetachedOnClose i (listenerExit i e k) =
        (if e.OnClose.Blocking then 0 else 1) ∧
      lifetimeOnCloseCount i e k =
        (if e.OnClose.Blocking then 1 else 2) := by
  intro i e k
  have hmach : machineCloseActs (closeWrapperOf i e k) =
      [DsAction.updateReg (closeWrapperOf i e k), DsAction.runOnClose i] := by
    simp [machineCloseActs, closeWrapperOf]
  have hcount : countRunOnClose i (machineCloseActs (closeWrapperOf i e k)) = 1 := by
    rw [hmach]
    simp [countRunOnClose]
  have hdet : countDetachedOnClose i (listenerExit i e k) =
      (if e.OnClose.Blocking then 0 else 1) := by
    rcases hb : e.OnClose.Blocking <;>
      simp [listenerExit, hb, countDetachedOnClose]
  refine ⟨?_, hmach, hcount, hdet, ?_⟩
  · intro s kp rest
    simp [closeTrans, machineCloseActs]
  · rw [lifetimeOnCloseCount, hdet, hcount]
    rcases e.OnClose.Blocking <;> simp

/-- Counterexample to claim C8 as stated: a listener forced out by the
`done` broadcast (the kill/drain path) sends a close notice whose entry
still has `IsClosed = false`, and the registry update propagates that
`false`; the snapshot then reports `is_closed = false` for the entry,
where the claim (and the spec's Kill-before-Run scenario) expects `true`. -/
theorem c8_counterexample :
    (startListener 0 ⟨5, ⟨1, true, false⟩, ⟨2, true⟩, false⟩
        [LEvent.doneSig]).2 = some ExitKind.doneExit ∧
    (startListener 0 ⟨5, ⟨1, true, false⟩, ⟨2, true⟩, false⟩ [LEvent.doneSig]).1 =
      [LAction.sendClose
        (closeWrapperOf 0 ⟨5, ⟨1, true, false⟩, ⟨2, true⟩, false⟩
          ExitKind.doneExit)] ∧
    (ChannelsSnapshot (updateChannels
        { kill := false, onCloseQ := [], prioQ := [], aggQ := [], loadQ := [],
          channels := [⟨5, ⟨1, true, false⟩, ⟨2, true⟩, false⟩] }
        (closeWrapperOf 0 ⟨5, ⟨1, true, false⟩, ⟨2, true⟩, false⟩
          ExitKind.doneExit)))[0]? =
      some ⟨5, ⟨1, true, false⟩, ⟨2, true⟩, false⟩ ∧
    (⟨5, ⟨1, true, false⟩, ⟨2, true⟩, false⟩ : ChannelEntry).IsClosed = false := by
  decide

/-- Claim C8 (amended): a terminating listener's close notice carries
`is_closed = true` exactly when it exited on end-of-stream or on a caught
fault; a listener forced out by `done` (or by the loop-top liveness
check) leaves `is_closed = false`; and the state machine's registry
update propagates the notice's entry verbatim to the snapshot at its
index.  So after the kill/drain sequence, entries whose streams never
closed are reported with `is_closed = false`, not `true`. -/
theorem c8_is_closed_propagation :
    ∀ (i : Nat) (e : ChannelEntry) (evs : List LEvent) (k : ExitKind)
      (s : SelState),
      (listenerLoop i { e with IsClosed := false } evs).2.2 = some k →
      i < s.channels.length →
      ((closeWrapperOf i (listenerLoop i { e with IsClosed := false } evs).2.1
          k).Entry.IsClosed = true ↔
        (k = ExitKind.eofExit ∨ k = ExitKind.panicExit)) ∧
      (ChannelsSnapshot (updateChannels s
          (closeWrapperOf i (listenerLoop i { e with IsClosed := false } evs).2.1
            k)))[i]? =
        some (closeWrapperOf i
          (listenerLoop i { e with IsClosed := false } evs).2.1 k).Entry := by
  intro i e evs k s hexit hlt
  have hclosed := listenerLoop_isClosed i evs { e with IsClosed := false } k hexit
  constructor
  · rcases k <;> simp_all [closeWrapperOf]
  · have hidx : (closeWrapperOf i
        (listenerLoop i { e with IsClosed := false } evs).2.1 k).Index = i := rfl
    simp only [ChannelsSnapshot, updateChannels, hidx]
    exact List.getElem?_set_eq_of_lt _ hlt

/-- Witness for C8 (amended): a listener pushed out by `done` propagates
`is_closed = false` into the one-entry registry. -/
theorem c8_is_closed_propagation_witness :
    ((closeWrapperOf 0
        (listenerLoop 0
          { Channel := 5, Handler := ⟨1, true, false⟩, OnClose := ⟨2, true⟩,
            IsClosed := false }
          [LEvent.doneSig]).2.1
        ExitKind.doneExit).Entry.IsClosed = true ↔
      (ExitKind.doneExit = ExitKind.eofExit ∨
       ExitKind.doneExit = ExitKind.panicExit)) ∧
    (ChannelsSnapshot (updateChannels
        { kill := false, onCloseQ := [], prioQ := [], aggQ := [], loadQ := [],
          channels := [⟨6, ⟨1, true, false⟩, ⟨2, true⟩, true⟩] }
        (closeWrapperOf 0
          (listenerLoop 0
            { Channel := 5, Handler := ⟨1, true, false⟩, OnClose := ⟨2, true⟩,
              IsClosed := false }
            [LEvent.doneSig]).2.1
          ExitKind.doneExit)))[0]? =
      some (closeWrapperOf 0
        (listenerLoop 0
          { Channel := 5, Handler := ⟨1, true, false⟩, OnClose := ⟨2, true⟩,
            IsClosed := false }
          [LEvent.doneSig]).2.1
        ExitKind.doneExit).Entry :=
  c8_is_closed_propagation 0
    { Channel := 5, Handler := ⟨1, true, false⟩, OnClose := ⟨2, true⟩,
      IsClosed := false }
    [LEvent.doneSig] ExitKind.doneExit
    { kill := false, onCloseQ := [], prioQ := [], aggQ := [], loadQ := [],
      channels := [⟨6, ⟨1, true, false⟩, ⟨2, true⟩, true⟩] }
    rfl (by decide)

/-- Counterexample to claim C9 as stated: construction only rejects
`min > max`, so `min = -2, max = -1` (negative `time.Duration` values)
is accepted; after a single Wait ticket the doubling sets
`current_wait = -4`, violating `min ≤ current_wait`. -/
theorem c9_counterexample :
    NewExpoBackoffManager ⟨-2, -1, 1, 1⟩ = some (initEBM ⟨-2, -1, 1, 1⟩) ∧
    (-2 : Int) ≤ -1 ∧
    (handleSleepStep (initEBM ⟨-2, -1, 1, 1⟩)).2.currentBackOff = -4 ∧
    ¬((-2 : Int) ≤ -4) := by
  refine ⟨rfl, by norm_num, ?_, by norm_num⟩
  have hw : wrap64 (-4 : Int) = -4 := by
    unfold wrap64
    decide
  norm_num [handleSleepStep, initEBM, hw]

/-- Claim C9 (amended): for a Backoff controller constructed with
`0 ≤ min ≤ max`, `0 ≤ cooldown_step`, and values within `int64` range so
the doubling cannot overflow (`2·max < 2⁶³`, `cooldown_step < 2⁶³`), the
invariant `min ≤ current_wait ≤ max` holds after each mutator: each Wait
ticket snapshots `current_wait` as its sleep duration and sets it to
`min(current_wait · 2, max)`, each cooldown tick sets it to
`max(current_wait − cooldown_step, min)`, and after `k` consecutive Wait
tickets with no cooldown tick the value is `min(min · 2ᵏ, max)`.  The
unamended claim admits negative durations, where the invariant fails. -/
theorem c9_backoff_invariant :
    ∀ o : Opts, 0 ≤ o.Min → o.Min ≤ o.Max →
      2 * o.Max < 9223372036854775808 →
      0 ≤ o.CooldownSize → o.CooldownSize < 9223372036854775808 →
      NewExpoBackoffManager o = some (initEBM o) ∧
      (∀ e : ExpoBackoffManager,
        e.minBackOff = o.Min → e.maxBackOff = o.Max →
        e.cooldownSize = o.CooldownSize →
        o.Min ≤ e.currentBackOff → e.currentBackOff ≤ o.Max →
        (handleSleepStep e).1 = e.currentBackOff ∧
        (handleSleepStep e).2.currentBackOff = min (2 * e.currentBackOff) o.Max ∧
        o.Min ≤ (handleSleepStep e).2.currentBackOff ∧
        (handleSleepStep e).2.currentBackOff ≤ o.Max ∧
        (cooldownStep e).currentBackOff =
          max (e.currentBackOff - o.CooldownSize) o.Min ∧
        o.Min ≤ (cooldownStep e).currentBackOff ∧
        (cooldownStep e).currentBackOff ≤ o.Max) ∧
      (∀ k : Nat,
        (waitIter k (initEBM o)).currentBackOff = min (o.Min * 2 ^ k) o.Max ∧
        o.Min ≤ (waitIter k (initEBM o)).currentBackOff ∧
        (waitIter k (initEBM o)).currentBackOff ≤ o.Max) := by
  intro o hmin0 hminmax hov hsz0 hszhi
  refine ⟨?_, ?_, ?_⟩
  · unfold NewExpoBackoffManager
    rw [if_neg (by omega)]
  · intro e hm hx hs hlo hhi
    have hstep := handleSleepStep_current e (by omega) (by omega) (by omega) (by omega)
    have hcool := cooldownStep_current e (by omega) (by omega) (by omega)
      (by omega) (by omega) (by omega)
    rw [hx] at hstep
    rw [hs, hm] at hcool
    refine ⟨rfl, hstep, ?_, ?_, hcool, ?_, ?_⟩
    · rw [hstep]
      omega
    · rw [hstep]
      omega
    · rw [hcool]
      omega
    · rw [hcool]
      omega
  · intro k
    have hfor := waitIter_formula o hmin0 hminmax hov k
    have hpow : (0 : Int) < 2 ^ k := by positivity
    have hge : o.Min * 2 ^ k ≥ o.Min := by
      have := mul_le_mul_of_nonneg_left (by omega : (1 : Int) ≤ 2 ^ k) hmin0
      simpa [mul_comm] using this
    refine ⟨hfor, ?_, ?_⟩ <;> rw [hfor] <;> omega

/-- Witness for C9 (amended): with `min = 1, max = 60`, one Wait ticket
doubles the wait to 2 and five tickets reach `min(2⁵, 60) = 32`. -/
theorem c9_backoff_invariant_witness :
    (handleSleepStep (initEBM ⟨1, 60, 0, 1⟩)).2.currentBackOff = min (2 * 1) 60 ∧
    (waitIter 5 (initEBM ⟨1, 60, 0, 1⟩)).currentBackOff = min (1 * 2 ^ 5) 60 := by
  have h := c9_backoff_invariant ⟨1, 60, 0, 1⟩ (by norm_num) (by norm_num)
    (by norm_num) (by norm_num) (by norm_num)
  refine ⟨?_, (h.2.2 5).1⟩
  have h2 := (h.2.1 (initEBM ⟨1, 60, 0, 1⟩) rfl rfl rfl (by norm_num [initEBM])
    (by norm_num [initEBM])).2.1
  simpa [initEBM] using h2

/-- Claim C10: validation only rejects `min > max`, so a controller with
`min = max = d` is accepted; while it is alive `CurrentWaitTime` returns
the value with both `at_min` and `at_max` true, whereas after it stops it
returns `(min, true, false)` — reporting `at_max` as `false` even though
the returned value equals `max`. -/
theorem c10_current_wait_time_min_eq_max :
    ∀ (d tick sz : Int),
      NewExpoBackoffManager ⟨d, d, tick, sz⟩ = some (initEBM ⟨d, d, tick, sz⟩) ∧
      (initEBM ⟨d, d, tick, sz⟩).alive = true ∧
      (initEBM ⟨d, d, tick, sz⟩).currentBackOff = d ∧
      (∀ e : ExpoBackoffManager, e.alive = true → e.currentBackOff = d →
        e.minBackOff = d → e.maxBackOff = d →
        CurrentWaitTime e = (d, true, true)) ∧
      (∀ e : ExpoBackoffManager, e.minBackOff = d → e.maxBackOff = d →
        CurrentWaitTime (stopRun e) = (d, true, false) ∧
        (stopRun e).maxBackOff = d ∧
        (CurrentWaitTime (stopRun e)).1 = (stopRun e).maxBackOff) := by
  intro d tick sz
  refine ⟨?_, rfl, rfl, ?_, ?_⟩
  · unfold NewExpoBackoffManager
    rw [if_neg (by simp)]
  · intro e ha hc hm hx
    simp [CurrentWaitTime, ha, hc, hm, hx]
  · intro e hm hx
    refine ⟨?_, hx, ?_⟩ <;> simp [CurrentWaitTime, stopRun, hm, hx]

/-- Witness for C10: the quirk at `d = 7`: alive reports
`(7, true, true)`, stopped reports `(7, true, false)` although the value
still equals `max`. -/
theorem c10_current_wait_time_min_eq_max_witness :
    CurrentWaitTime (initEBM ⟨7, 7, 0, 0⟩) = (7, true, true) ∧
    CurrentWaitTime (stopRun (initEBM ⟨7, 7, 0, 0⟩)) = (7, true, false) ∧
    (stopRun (initEBM ⟨7, 7, 0, 0⟩)).maxBackOff = 7 :=
  ⟨(c10_current_wait_time_min_eq_max 7 0 0).2.2.2.1 (initEBM ⟨7, 7, 0, 0⟩)
      rfl rfl rfl rfl,
   ((c10_current_wait_time_min_eq_max 7 0 0).2.2.2.2 (initEBM ⟨7, 7, 0, 0⟩)
      rfl rfl).1,
   ((c10_current_wait_time_min_eq_max 7 0 0).2.2.2.2 (initEBM ⟨7, 7, 0, 0⟩)
      rfl rfl).2.1⟩

end GoConquer
